import Mathlib

/-!
Verification development for the in-memory dataset + asynchronous job
subsystem of the Nigeria Health Data Analysis service
(`src/services/data_service.py`).

The Python service holds at most one polars DataFrame (`self.data`), answers
schema and filtered-query requests over it, and runs background summary jobs
recorded in a job registry (`self.jobs`).  Here the DataFrame is embedded
row-oriented: a cell is the stringified column value (`Option String`, `none`
for a null), matching the only view of cell values the service ever takes
(`cast(pl.Utf8)` for filtering, `is_null` for missing values, `value_counts`
for distributions).  Fallible operations return `Except String`, mirroring the
`ValueError`s raised by the Python code.
-/

namespace DataService

/-- A cell: the stringified value held in a column, or `none` for a null. -/
abbrev Cell := Option String

/-- Inferred column type tag (the subset relevant to this service). -/
inductive Dtype where
  | int64
  | float64
  | utf8
  | boolean
deriving DecidableEq, Repr

/-- The in-memory dataset: named columns in schema order, a dtype per column,
and the rows (each row aligned positionally with `columns`). -/
structure DataFrame where
  columns : List String
  dtypes : List Dtype
  rows : List (List Cell)
deriving DecidableEq, Repr

/-- Wellformedness guaranteed by polars: unique column names and every row as
wide as the header. -/
def DataFrame.WF (df : DataFrame) : Prop :=
  df.columns.Nodup ∧ ∀ row ∈ df.rows, row.length = df.columns.length

instance (df : DataFrame) : Decidable df.WF := by
  unfold DataFrame.WF; infer_instance

/-- A query filter: `{"column": ..., "value": ...}`. -/
structure Filter where
  column : String
  value : String
deriving DecidableEq, Repr

/-- A record produced by `to_dicts`: column-name/cell pairs in schema order. -/
abbrev Record := List (String × Cell)

/-- `to_dicts` for one row: pair the column names with the row's cells. -/
def toDict (cols : List String) (row : List Cell) : Record :=
  cols.zip row

/-- Does the character list `p` occur as a prefix of `s`? -/
def startsWithL : List Char → List Char → Bool
  | [], _ => true
  | _ :: _, [] => false
  | p :: ps, c :: cs => (p = c) && startsWithL ps cs

/-- Does the character list `pat` occur contiguously inside `s`? -/
def hasSubL (pat : List Char) : List Char → Bool
  | [] => pat.isEmpty
  | c :: cs => startsWithL pat (c :: cs) || hasSubL pat cs

/-- `str.contains(pat, literal=True)`: literal substring containment. -/
def strContains (s pat : String) : Bool :=
  hasSubL pat.toList s.toList

/-- The polars predicate `pl.col(col).cast(pl.Utf8).str.contains(val,
literal=True)` evaluated on one row: look the filter column up positionally;
a null cell (or a missing column position) yields `false`, so null rows are
dropped by the filter. -/
def rowMatches (cols : List String) (f : Filter) (row : List Cell) : Bool :=
  match (row.get? (cols.indexOf f.column)).join with
  | some s => strContains s f.value
  | none => false

/-- One step of the filter loop in `query_data`: if the filter's column is
present, keep only the rows whose stringified cell contains the filter value;
otherwise the filter is a no-op. -/
def applyFilter (df : DataFrame) (f : Filter) : DataFrame :=
  if df.columns.contains f.column then
    { df with rows := df.rows.filter (rowMatches df.columns f) }
  else df

/-- The filter loop of `query_data`, applied in order. -/
def applyFilters (df : DataFrame) (fs : List Filter) : DataFrame :=
  fs.foldl applyFilter df

/-- `DataService.query_data`: raises `No data loaded` without a dataset,
otherwise applies the filters in order and returns at most `limit` rows as
records (`df.head(limit).to_dicts()`). -/
def query_data (data : Option DataFrame) (filters : List Filter)
    (limit : Nat) : Except String (List Record) :=
  match data with
  | none => .error "No data loaded"
  | some df =>
      let fd := applyFilters df filters
      .ok ((fd.rows.take limit).map (toDict fd.columns))

/-- The filter test on a returned record, as the spec phrases it: look the
column up by name in the record. -/
def recordMatches (f : Filter) (rec : Record) : Bool :=
  match (rec.lookup f.column).join with
  | some s => strContains s f.value
  | none => false

/-- Rendered dtype name, as `str(dtype)` produces it. -/
def dtypeName : Dtype → String
  | .int64 => "Int64"
  | .float64 => "Float64"
  | .utf8 => "String"
  | .boolean => "Boolean"

/-- The payload returned by `DataService.get_schema`. -/
structure SchemaInfo where
  columns : List String
  dtypes : List (String × String)
  shape : Nat × Nat
  sample_data : List Record
deriving DecidableEq, Repr

/-- `DataService.get_schema`: raises `No data loaded` without a dataset,
otherwise reports columns, dtype names, `shape = (n_rows, n_cols)` and the
first 5 rows as records. -/
def get_schema (data : Option DataFrame) : Except String SchemaInfo :=
  match data with
  | none => .error "No data loaded"
  | some df =>
      .ok { columns := df.columns
            dtypes := df.columns.zip (df.dtypes.map dtypeName)
            shape := (df.rows.length, df.columns.length)
            sample_data := (df.rows.take 5).map (toDict df.columns) }

/-- Split a character list at every occurrence of `sep` (structurally, so
that concrete payloads evaluate); `acc` holds the reversed current field. -/
def splitOnCharAux (sep : Char) : List Char → List Char → List (List Char)
  | [], acc => [acc.reverse]
  | c :: cs, acc =>
      if c = sep then acc.reverse :: splitOnCharAux sep cs []
      else splitOnCharAux sep cs (c :: acc)

/-- Split a string at every occurrence of the separator character. -/
def splitOnChar (sep : Char) (s : String) : List String :=
  (splitOnCharAux sep s.toList []).map String.mk

/-- The non-empty lines of a payload. -/
def csvLines (payload : String) : List String :=
  (splitOnChar (Char.ofNat 10) payload).filter (fun l => l ≠ "")

/-- Split one data line into cells; an empty field reads as null. -/
def splitFields (line : String) : List Cell :=
  (splitOnChar ',' line).map (fun f => if f = "" then none else some f)

/-- Does the string spell an optionally-signed decimal integer? -/
def isIntString (s : String) : Bool :=
  match s.toList with
  | [] => false
  | '-' :: cs => !cs.isEmpty && cs.all (fun c => c.isDigit)
  | cs => cs.all (fun c => c.isDigit)

/-- Modelled from the spec: dtype inference of the external `pl.read_csv`.
The spec types columns as integer/floating-point/string/boolean; no claim
depends on the inference beyond its existence, so a column whose non-null
values all spell integers is tagged integer and anything else string. -/
def inferDtype (cells : List Cell) : Dtype :=
  if cells.all (fun c =>
      match c with
      | none => true
      | some s => isIntString s) then
    .int64
  else .utf8

/-- The cells of column `i`, top to bottom. -/
def colCells (df : DataFrame) (i : Nat) : List Cell :=
  df.rows.map (fun r => (r.get? i).join)

/-- Parse the non-empty lines of a payload: first line is the header, the
remaining lines the rows; malformed row/column structure (a row wider or
narrower than the header, or no header at all) is a parse error. -/
def parseLines : List String → Except String DataFrame
  | [] => .error "ParseError: empty payload"
  | header :: dataLines =>
      let cols := splitOnChar ',' header
      let rows := dataLines.map splitFields
      if rows.all (fun r => r.length = cols.length) then
        .ok { columns := cols
              dtypes := (List.range cols.length).map
                (fun i => inferDtype (rows.map (fun r => (r.get? i).join)))
              rows := rows }
      else .error "ParseError: malformed row structure"

/-- Modelled from the spec: the external `pl.read_csv` called by
`DataService.load_csv_async`. -/
def read_csv (payload : String) : Except String DataFrame :=
  parseLines (csvLines payload)

/-- `DataService.load_csv_async`: parse the upload and make it the held
dataset (the caller stores the result as the new `self.data`). -/
def load_csv_async (payload : String) : Except String DataFrame :=
  read_csv payload

/-! ### Summarization engine -/

/-- `DataService._get_basic_statistics`: numeric columns are those whose dtype
is one of `Float64, Float32, Int64, Int32`.  With none, the explicit
`No numeric columns found` marker is returned; otherwise the external polars
`describe` runs over the numeric columns (its aggregate output is not needed
by any claim and is abstracted to the column list it describes); either way
the computation does not raise. -/
inductive BasicStats where
  | noNumeric
  | described (numericCols : List String)
deriving DecidableEq, Repr

/-- Is a dtype counted as numeric by `_get_basic_statistics`? -/
def Dtype.isNumeric : Dtype → Bool
  | .int64 => true
  | .float64 => true
  | _ => false

def _get_basic_statistics (df : DataFrame) : BasicStats :=
  let numericCols := (df.columns.zip df.dtypes).filterMap
    (fun cd => if cd.2.isNumeric then some cd.1 else none)
  if numericCols.isEmpty then .noNumeric else .described numericCols

/-- The per-column loop of `DataService._get_missing_values`, carrying the
current column index.  For each column the null count is divided by
`self.data.shape[0]`; with zero rows Python's division raises
`ZeroDivisionError`, embedded as the error case. -/
def missingFor (df : DataFrame) : List String → Nat →
    Except String (List (String × Nat × ℚ))
  | [], _ => .ok []
  | c :: cs, i =>
      let nc := (colCells df i).countP (fun x => x.isNone)
      if df.rows.length = 0 then
        .error "ZeroDivisionError: division by zero"
      else do
        let rest ← missingFor df cs (i + 1)
        .ok ((c, nc, ((nc : ℚ) / df.rows.length) * 100) :: rest)

/-- `DataService._get_missing_values`: null count and null percentage per
column, in schema order. -/
def _get_missing_values (df : DataFrame) :
    Except String (List (String × Nat × ℚ)) :=
  missingFor df df.columns 0

/-- First-occurrence deduplication (the distinct values of a column, in the
deterministic order this model fixes for the external `value_counts`). -/
def dedupAux (seen : List Cell) : List Cell → List Cell
  | [] => []
  | c :: cs =>
      if seen.contains c then dedupAux seen cs
      else c :: dedupAux (c :: seen) cs

def dedupF (l : List Cell) : List Cell :=
  dedupAux [] l

/-- Modelled from the polars documentation: `Series.value_counts()` called
without `sort=True` pairs each distinct value of the column with its count,
in an order that is NOT sorted by count (the docs leave it unspecified; this
model fixes first-occurrence order). -/
def value_counts (cells : List Cell) : List (Cell × Nat) :=
  (dedupF cells).map (fun v => (v, cells.count v))

/-- One distributions entry: the (value, count) rows kept for a column, or
the `{"error": ...}` marker the `except` branch records. -/
inductive DistEntry where
  | counts (l : List (Cell × Nat))
  | err (msg : String)
deriving DecidableEq, Repr

/-- The body of the per-column `try` in `_get_distributions`:
`value_counts().head(10)`.  The model's `value_counts` is total, so the
`except` branch producing `DistEntry.err` is unreachable here. -/
def distFor (cells : List Cell) : DistEntry :=
  .counts ((value_counts cells).take 10)

/-- `DataService._get_distributions`: one entry per column of
`self.data.columns[:5]`, in schema order. -/
def _get_distributions (df : DataFrame) : List (String × DistEntry) :=
  (df.columns.enum.take 5).map (fun ic => (ic.2, distFor (colCells df ic.1)))

/-- The three sub-results assembled by `_run_summary_job`. -/
structure SummaryResult where
  basic_statistics : BasicStats
  missing_values : List (String × Nat × ℚ)
  distributions : List (String × DistEntry)
deriving DecidableEq, Repr

/-- The summary computation in the order the job body runs it: basic
statistics, then missing values (which may raise), then distributions. -/
def summarize (df : DataFrame) : Except String SummaryResult := do
  let bs := _get_basic_statistics df
  let mv ← _get_missing_values df
  let d := _get_distributions df
  .ok ⟨bs, mv, d⟩

/-- The fallible part of the `try` block of `_run_summary_job`: raise
`No data loaded` without a dataset, otherwise summarize it. -/
def run_summary_body (data : Option DataFrame) :
    Except String SummaryResult :=
  match data with
  | none => .error "No data loaded"
  | some df => summarize df

/-! ### Job registry and scheduler -/

/-- Job lifecycle status. -/
inductive JobStatus where
  | pending
  | running
  | completed
  | failed
deriving DecidableEq, Repr

/-- A job record as stored in `self.jobs`; timestamps are abstract instants
standing for `datetime.now().isoformat()` strings. -/
structure Job where
  status : JobStatus
  created_at : Nat
  completed_at : Option Nat
  result : Option SummaryResult
  error : Option String
deriving DecidableEq, Repr

/-- The record `create_summary_job` inserts: `pending`, creation timestamp,
everything else unset. -/
def newJob (t : Nat) : Job :=
  { status := .pending
    created_at := t
    completed_at := none
    result := none
    error := none }

/-- The first registry write of `_run_summary_job`:
`self.jobs[job_id]["status"] = "running"`. -/
def startJob (j : Job) : Job :=
  { j with status := .running }

/-- The final registry write of `_run_summary_job`: on success the
`completed` update with result and completion timestamp; on any raised
failure the `except` clause's `failed` update with the error's description
and a completion timestamp (the result field is left untouched). -/
def finishJob (data : Option DataFrame) (j : Job) (t : Nat) : Job :=
  match run_summary_body data with
  | .ok r =>
      { j with status := .completed, completed_at := some t, result := some r }
  | .error e =>
      { j with status := .failed, completed_at := some t, error := some e }

/-- The successive states a job record passes through, from creation through
the background unit of work: inserted `pending` at `t0`, set `running`, then
finished (successfully or not) at `t1`.  These are the only writes the
service ever performs on a job record. -/
def jobTrace (data : Option DataFrame) (t0 t1 : Nat) : List Job :=
  [newJob t0, startJob (newJob t0), finishJob data (startJob (newJob t0)) t1]

/-- `DataService.create_summary_job`'s registry insertion: a fresh
identifier mapped to a new pending record (the registry is a dict embedded
as an association list, newest binding first). -/
def create_summary_job (jobs : List (String × Job)) (job_id : String)
    (t : Nat) : List (String × Job) :=
  (job_id, newJob t) :: jobs

/-- `DataService.get_job_status`: raise `Job not found` for an absent
identifier, otherwise return the stored record. -/
def get_job_status (jobs : List (String × Job)) (job_id : String) :
    Except String Job :=
  match jobs.lookup job_id with
  | none => .error "Job not found"
  | some j => .ok j

/-! ### Lemmas about the query pipeline -/

theorem strContains_empty_right (s : String) : strContains s "" = true := by
  unfold strContains
  cases s.toList with
  | nil => rfl
  | cons c cs => simp [hasSubL, startsWithL]

theorem applyFilter_columns (df : DataFrame) (f : Filter) :
    (applyFilter df f).columns = df.columns := by
  unfold applyFilter; split <;> rfl

theorem applyFilters_columns (fs : List Filter) :
    ∀ df : DataFrame, (applyFilters df fs).columns = df.columns := by
  induction fs with
  | nil => intro df; rfl
  | cons f fs ih =>
      intro df
      show (applyFilters (applyFilter df f) fs).columns = df.columns
      rw [ih, applyFilter_columns]

theorem applyFilter_rows_sublist (df : DataFrame) (f : Filter) :
    (applyFilter df f).rows.Sublist df.rows := by
  unfold applyFilter; split
  · exact List.filter_sublist df.rows
  · exact List.Sublist.refl _

theorem applyFilters_rows_sublist (fs : List Filter) :
    ∀ df : DataFrame, (applyFilters df fs).rows.Sublist df.rows := by
  induction fs with
  | nil => intro df; exact List.Sublist.refl _
  | cons f fs ih =>
      intro df
      exact (ih (applyFilter df f)).trans (applyFilter_rows_sublist df f)

theorem applyFilter_of_not_contains (df : DataFrame) (f : Filter)
    (h : df.columns.contains f.column = false) : applyFilter df f = df := by
  have h' : f.column ∉ df.columns := by simpa using h
  simp [applyFilter, h']

theorem applyFilter_of_contains (df : DataFrame) (f : Filter)
    (h : df.columns.contains f.column = true) :
    (applyFilter df f).rows = df.rows.filter (rowMatches df.columns f) := by
  have h' : f.column ∈ df.columns := by simpa using h
  simp [applyFilter, h']

theorem applyFilters_filter_contains (fs : List Filter) :
    ∀ df : DataFrame,
      applyFilters df (fs.filter (fun f => df.columns.contains f.column)) =
        applyFilters df fs := by
  induction fs with
  | nil => intro df; rfl
  | cons f fs ih =>
      intro df
      by_cases h : df.columns.contains f.column = true
      · rw [List.filter_cons_of_pos (by simpa using h)]
        show applyFilters (applyFilter df f)
            (fs.filter (fun g => df.columns.contains g.column)) =
          applyFilters (applyFilter df f) fs
        have hc : (fun g : Filter => df.columns.contains g.column) =
            (fun g : Filter => (applyFilter df f).columns.contains g.column) := by
          funext g; rw [applyFilter_columns]
        rw [hc]
        exact ih (applyFilter df f)
      · rw [List.filter_cons_of_neg (by simpa using h)]
        show applyFilters df (fs.filter (fun g => df.columns.contains g.column)) =
          applyFilters (applyFilter df f) fs
        rw [applyFilter_of_not_contains df f (by simpa using h)]
        exact ih df

theorem mem_applyFilters_rows (fs : List Filter) :
    ∀ (df : DataFrame) (r : List Cell), r ∈ (applyFilters df fs).rows →
      r ∈ df.rows ∧ ∀ f ∈ fs, df.columns.contains f.column = true →
        rowMatches df.columns f r = true := by
  induction fs with
  | nil =>
      intro df r h
      refine ⟨h, ?_⟩
      intro f hf
      exact absurd hf (List.not_mem_nil f)
  | cons f fs ih =>
      intro df r h
      obtain ⟨h1, h2⟩ := ih (applyFilter df f) r h
      rw [applyFilter_columns] at h2
      by_cases hc : df.columns.contains f.column = true
      · rw [applyFilter_of_contains df f hc] at h1
        have hm := List.mem_filter.mp h1
        refine ⟨hm.1, ?_⟩
        intro g hg hgc
        rcases List.mem_cons.mp hg with rfl | hg'
        · exact hm.2
        · exact h2 g hg' hgc
      · rw [applyFilter_of_not_contains df f (by simpa using hc)] at h1
        refine ⟨h1, ?_⟩
        intro g hg hgc
        rcases List.mem_cons.mp hg with rfl | hg'
        · exact absurd hgc hc
        · exact h2 g hg' hgc

theorem lookup_zip (c : String) :
    ∀ (cols : List String) (row : List Cell), row.length = cols.length →
      (cols.zip row).lookup c = row.get? (cols.indexOf c) := by
  intro cols
  induction cols with
  | nil =>
      intro row h
      have hrow : row = [] := List.length_eq_zero.mp h
      subst hrow; rfl
  | cons a cols ih =>
      intro row h
      match row with
      | [] => simp at h
      | b :: row =>
        by_cases hca : c = a
        · subst hca
          simp [List.zip_cons_cons, List.indexOf_cons]
        · have h1 : (c == a) = false := by simp [hca]
          have h2 : (a == c) = false := by simp [Ne.symm hca]
          simp only [List.zip_cons_cons, List.lookup_cons, h1, List.indexOf_cons,
            h2, cond_false]
          exact ih row (by simpa using h)

theorem recordMatches_toDict (cols : List String) (f : Filter) (row : List Cell)
    (h : row.length = cols.length) :
    recordMatches f (toDict cols row) = rowMatches cols f row := by
  unfold recordMatches rowMatches toDict
  rw [lookup_zip f.column cols row h]

/-- **C1.** For every loaded dataset, ordered filter sequence and positive
limit, `query_data` returns (never raises) at most `limit` records, a
subsequence of the dataset's records in original row order; every returned
record satisfies every filter whose column is present; a filter on an absent
column leaves the dataset unchanged, and dropping all absent-column filters
does not change the query result. -/
theorem query_filters_sound (df : DataFrame) (filters : List Filter)
    (limit : Nat) (hwf : df.WF) (hpos : 0 < limit) :
    ∃ recs : List Record,
      query_data (some df) filters limit = Except.ok recs ∧
      recs.length ≤ limit ∧
      recs.Sublist (df.rows.map (toDict df.columns)) ∧
      (∀ rec ∈ recs, ∀ f ∈ filters,
        df.columns.contains f.column = true → recordMatches f rec = true) ∧
      (∀ f : Filter, df.columns.contains f.column = false →
        applyFilter df f = df) ∧
      query_data (some df)
          (filters.filter (fun f => df.columns.contains f.column)) limit =
        query_data (some df) filters limit := by
  refine ⟨((applyFilters df filters).rows.take limit).map (toDict df.columns),
    ?_, ?_, ?_, ?_, ?_, ?_⟩
  · simp only [query_data]
    rw [applyFilters_columns]
  · rw [List.length_map]
    exact List.length_take_le limit _
  · refine List.Sublist.map _ ?_
    exact (List.take_sublist _ _).trans (applyFilters_rows_sublist filters df)
  · intro rec hrec f hf hc
    obtain ⟨r, hr, rfl⟩ := List.mem_map.mp hrec
    have hr' : r ∈ (applyFilters df filters).rows := List.mem_of_mem_take hr
    obtain ⟨hrdf, hmatch⟩ := mem_applyFilters_rows filters df r hr'
    rw [recordMatches_toDict df.columns f r (hwf.2 r hrdf)]
    exact hmatch f hf hc
  · intro f hc
    exact applyFilter_of_not_contains df f hc
  · simp only [query_data]
    rw [applyFilters_filter_contains]

/-- Concrete dataset used by witnesses: the spec's query scenario data. -/
def wDf : DataFrame :=
  { columns := ["SEX (DISPLAY)", "YEAR (DISPLAY)", "Numeric"]
    dtypes := [.utf8, .int64, .int64]
    rows := [[some "Male", some "2000", some "10"],
             [some "Female", some "2001", some "20"],
             [some "Both sexes", some "2002", some "30"]] }

/-- Concrete filters used by the C1 witness: one present column, one absent. -/
def wFilters : List Filter :=
  [{ column := "SEX (DISPLAY)", value := "Male" },
   { column := "no such column", value := "x" }]

theorem query_filters_sound_witness :
    ∃ recs : List Record,
      query_data (some wDf) wFilters 10 = Except.ok recs ∧
      recs.length ≤ 10 ∧
      recs.Sublist (wDf.rows.map (toDict wDf.columns)) ∧
      (∀ rec ∈ recs, ∀ f ∈ wFilters,
        wDf.columns.contains f.column = true → recordMatches f rec = true) ∧
      (∀ f : Filter, wDf.columns.contains f.column = false →
        applyFilter wDf f = wDf) ∧
      query_data (some wDf)
          (wFilters.filter (fun f => wDf.columns.contains f.column)) 10 =
        query_data (some wDf) wFilters 10 :=
  query_filters_sound wDf wFilters 10 (by decide) (by decide)

/-- **C7.** `get_schema` and `query_data` fail with the `No data loaded`
error exactly when no dataset is held; with a dataset held neither returns
an error. -/
theorem no_data_loaded_iff (data : Option DataFrame) (filters : List Filter)
    (limit : Nat) :
    ((∃ e, get_schema data = .error e) ↔ data = none) ∧
    ((∃ e, query_data data filters limit = .error e) ↔ data = none) ∧
    get_schema (none : Option DataFrame) = .error "No data loaded" ∧
    query_data (none : Option DataFrame) filters limit =
      .error "No data loaded" := by
  refine ⟨?_, ?_, rfl, rfl⟩ <;> cases data <;> simp [get_schema, query_data]

theorem no_data_loaded_iff_witness :
    get_schema (none : Option DataFrame) = .error "No data loaded" ∧
    query_data (none : Option DataFrame) [] 5 = .error "No data loaded" :=
  ⟨(no_data_loaded_iff none [] 5).2.2.1, (no_data_loaded_iff none [] 5).2.2.2⟩

/-- **C10.** A filter on a present column excludes every row whose cell in
that column is null, whatever the match string; while the empty match string
matches every non-null cell. -/
theorem query_excludes_null_cells (df : DataFrame) (f : Filter)
    (row : List Cell)
    (hc : df.columns.contains f.column = true)
    (hnull : (row.get? (df.columns.indexOf f.column)).join = none) :
    row ∉ (applyFilter df f).rows ∧
    (∀ (row' : List Cell) (s : String),
      (row'.get? (df.columns.indexOf f.column)).join = some s →
      rowMatches df.columns { column := f.column, value := "" } row' = true) := by
  constructor
  · intro hmem
    rw [applyFilter_of_contains df f hc] at hmem
    have hmatch := (List.mem_filter.mp hmem).2
    unfold rowMatches at hmatch
    rw [hnull] at hmatch
    simp at hmatch
  · intro row' s h'
    unfold rowMatches
    rw [h']
    exact strContains_empty_right s

/-- Concrete dataset with a null cell, for the C10 witness. -/
def wNullDf : DataFrame :=
  { columns := ["a"]
    dtypes := [.utf8]
    rows := [[none], [some "x"]] }

theorem query_excludes_null_cells_witness :
    [(none : Cell)] ∉ (applyFilter wNullDf { column := "a", value := "zzz" }).rows ∧
    (∀ (row' : List Cell) (s : String),
      (row'.get? (wNullDf.columns.indexOf "a")).join = some s →
      rowMatches wNullDf.columns { column := "a", value := "" } row' = true) :=
  query_excludes_null_cells wNullDf { column := "a", value := "zzz" }
    [(none : Cell)] (by decide) (by decide)

/-! ### Job lifecycle -/

/-- **C4.** The background unit of work traps any failure: the final job
record is always terminal; an error `e` raised by the body produces the
`failed` record carrying `e` and the completion timestamp; with no dataset
loaded the body raises `No data loaded` and the job's trace ends in that
`failed` record. -/
theorem job_failure_trapped (data : Option DataFrame) (t0 t1 : Nat)
    (e : String) (he : run_summary_body data = .error e) :
    ((finishJob data (startJob (newJob t0)) t1).status = .completed ∨
      (finishJob data (startJob (newJob t0)) t1).status = .failed) ∧
    (finishJob data (startJob (newJob t0)) t1 =
      { status := .failed, created_at := t0, completed_at := some t1,
        result := none, error := some e }) ∧
    run_summary_body (none : Option DataFrame) = .error "No data loaded" ∧
    (jobTrace none t0 t1).getLast? = some
      { status := .failed, created_at := t0, completed_at := some t1,
        result := none, error := some "No data loaded" } := by
  refine ⟨?_, ?_, rfl, rfl⟩
  · right
    simp [finishJob, he]
  · simp [finishJob, he, startJob, newJob]

theorem job_failure_trapped_witness :
    ((finishJob none (startJob (newJob 0)) 1).status = .completed ∨
      (finishJob none (startJob (newJob 0)) 1).status = .failed) ∧
    (finishJob none (startJob (newJob 0)) 1 =
      { status := .failed, created_at := 0, completed_at := some 1,
        result := none, error := some "No data loaded" }) ∧
    run_summary_body (none : Option DataFrame) = .error "No data loaded" ∧
    (jobTrace none 0 1).getLast? = some
      { status := .failed, created_at := 0, completed_at := some 1,
        result := none, error := some "No data loaded" } :=
  job_failure_trapped none 0 1 "No data loaded" rfl

/-- The record invariant of §3 of the spec: nothing terminal is set before a
terminal state, and exactly one of result/error once terminal. -/
def JobInv (j : Job) : Prop :=
  ((j.status = .pending ∨ j.status = .running) →
    j.completed_at = none ∧ j.result = none ∧ j.error = none) ∧
  (j.status = .completed → j.result.isSome = true ∧ j.error = none) ∧
  (j.status = .failed → j.error.isSome = true ∧ j.result = none)

/-- **C5.** Every record a job passes through satisfies the invariant:
`completed_at`/`result`/`error` unset while `pending` or `running`; once
terminal, a `completed` job holds a result and no error and a `failed` job
holds an error and no result. -/
theorem job_record_invariant (data : Option DataFrame) (t0 t1 : Nat)
    (j : Job) (hj : j ∈ jobTrace data t0 t1) : JobInv j := by
  simp only [jobTrace, List.mem_cons, List.not_mem_nil, or_false] at hj
  rcases hj with rfl | rfl | rfl
  · simp [JobInv, newJob]
  · simp [JobInv, newJob, startJob]
  · cases hr : run_summary_body data with
    | ok r => simp [JobInv, finishJob, hr, startJob, newJob]
    | error e => simp [JobInv, finishJob, hr, startJob, newJob]

theorem job_record_invariant_witness : JobInv (newJob 0) :=
  job_record_invariant none 0 1 (newJob 0) (by simp [jobTrace])

/-- Position of a status along the one-directional lifecycle. -/
def statusRank : JobStatus → Nat
  | .pending => 0
  | .running => 1
  | .completed => 2
  | .failed => 2

/-- **C6.** The status only moves forward along
`pending → running → {completed, failed}`: a job is created `pending`, the
write sequence the unit of work performs on it is exactly
`[pending, running, terminal]`, and the rank of the status strictly
increases along it (so a terminal record never reverts). -/
theorem job_lifecycle_monotone (data : Option DataFrame) (t0 t1 : Nat) :
    (newJob t0).status = .pending ∧
    (∃ s, (jobTrace data t0 t1).map Job.status = [.pending, .running, s] ∧
      (s = .completed ∨ s = .failed)) ∧
    List.Chain' (fun a b => statusRank a < statusRank b)
      ((jobTrace data t0 t1).map Job.status) := by
  refine ⟨rfl, ?_, ?_⟩
  · cases hr : run_summary_body data with
    | ok r =>
        exact ⟨.completed,
          by simp [jobTrace, newJob, startJob, finishJob, hr], Or.inl rfl⟩
    | error e =>
        exact ⟨.failed,
          by simp [jobTrace, newJob, startJob, finishJob, hr], Or.inr rfl⟩
  · cases hr : run_summary_body data with
    | ok r =>
        have hmap : (jobTrace data t0 t1).map Job.status =
            [.pending, .running, .completed] := by
          simp [jobTrace, newJob, startJob, finishJob, hr]
        rw [hmap]
        norm_num [List.chain'_cons, statusRank]
    | error e =>
        have hmap : (jobTrace data t0 t1).map Job.status =
            [.pending, .running, .failed] := by
          simp [jobTrace, newJob, startJob, finishJob, hr]
        rw [hmap]
        norm_num [List.chain'_cons, statusRank]

/-- **C8.** The registry's get fails with `Job not found` exactly when the
identifier is absent; a present identifier returns its stored record, and an
identifier just inserted by a create returns the fresh pending record. -/
theorem job_registry_get (jobs : List (String × Job)) (job_id : String)
    (t : Nat) :
    ((∃ e, get_job_status jobs job_id = .error e) ↔
      jobs.lookup job_id = none) ∧
    (get_job_status jobs job_id = .error "Job not found" ↔
      jobs.lookup job_id = none) ∧
    (∀ j, jobs.lookup job_id = some j →
      get_job_status jobs job_id = .ok j) ∧
    get_job_status (create_summary_job jobs job_id t) job_id =
      .ok (newJob t) := by
  refine ⟨?_, ?_, ?_, ?_⟩
  · cases h : jobs.lookup job_id <;> simp [get_job_status, h]
  · cases h : jobs.lookup job_id <;> simp [get_job_status, h]
  · intro j hj
    simp [get_job_status, hj]
  · simp [get_job_status, create_summary_job]

theorem job_registry_get_witness :
    ((∃ e, get_job_status [] "nonexistent-id" = .error e) ↔
      List.lookup "nonexistent-id" ([] : List (String × Job)) = none) ∧
    (get_job_status [] "nonexistent-id" = .error "Job not found" ↔
      List.lookup "nonexistent-id" ([] : List (String × Job)) = none) ∧
    (∀ j, List.lookup "nonexistent-id" ([] : List (String × Job)) = some j →
      get_job_status [] "nonexistent-id" = .ok j) ∧
    get_job_status (create_summary_job [] "nonexistent-id" 0)
      "nonexistent-id" = .ok (newJob 0) :=
  job_registry_get [] "nonexistent-id" 0

theorem except_error_bind {α β : Type} (e : String)
    (f : α → Except String β) : (Except.error e >>= f) = Except.error e := rfl

/-- **C9.** On a dataset with at least one column and zero rows the
missing-value computation divides by the zero row count and raises, so the
whole summarization raises and the background job finishes `failed`. -/
theorem zero_row_summary_fails (df : DataFrame) (t0 t1 : Nat)
    (hc : df.columns ≠ []) (hr : df.rows = []) :
    (∃ e, _get_missing_values df = .error e) ∧
    (∃ e, run_summary_body (some df) = .error e) ∧
    (finishJob (some df) (startJob (newJob t0)) t1).status = .failed := by
  obtain ⟨c, cs, hcols⟩ : ∃ c cs, df.columns = c :: cs := by
    cases hcl : df.columns with
    | nil => exact absurd hcl hc
    | cons c cs => exact ⟨c, cs, rfl⟩
  have hmv : _get_missing_values df =
      .error "ZeroDivisionError: division by zero" := by
    unfold _get_missing_values
    rw [hcols]
    simp [missingFor, hr]
  have hbody : run_summary_body (some df) =
      .error "ZeroDivisionError: division by zero" := by
    show summarize df = _
    simp only [summarize]
    rw [hmv, except_error_bind]
  exact ⟨⟨_, hmv⟩, ⟨_, hbody⟩, by simp [finishJob, hbody]⟩

/-- A one-column, zero-row dataset (e.g. the parse of a header-only CSV). -/
def wEmptyDf : DataFrame :=
  { columns := ["a"], dtypes := [.utf8], rows := [] }

theorem zero_row_summary_fails_witness :
    (∃ e, _get_missing_values wEmptyDf = .error e) ∧
    (∃ e, run_summary_body (some wEmptyDf) = .error e) ∧
    (finishJob (some wEmptyDf) (startJob (newJob 0)) 1).status = .failed :=
  zero_row_summary_fails wEmptyDf 0 1 (by decide) rfl

/-! ### Load followed by schema -/

/-- The parse of the spec's scenario CSV `"col1,col2,col3\n1,2,3\n4,5,6"`. -/
def wCsvDf : DataFrame :=
  { columns := ["col1", "col2", "col3"]
    dtypes := [.int64, .int64, .int64]
    rows := [[some "1", some "2", some "3"],
             [some "4", some "5", some "6"]] }

/-- **C2.** Every valid tabular upload parses into a dataset whose schema
reports `shape = (rows_uploaded, columns_uploaded)` and the header's columns
in original order; in particular the scenario CSV
`"col1,col2,col3\n1,2,3\n4,5,6"` loads with a schema of shape `(2, 3)`. -/
theorem load_schema_shape (payload : String) (df : DataFrame)
    (h : read_csv payload = .ok df) :
    (∃ header dataLines, csvLines payload = header :: dataLines ∧
      ∃ s, get_schema (some df) = .ok s ∧
        s.shape = (dataLines.length, (splitOnChar ',' header).length) ∧
        s.columns = splitOnChar ',' header) ∧
    (∃ s, read_csv "col1,col2,col3\n1,2,3\n4,5,6" = Except.ok wCsvDf ∧
      get_schema (some wCsvDf) = Except.ok s ∧
      s.shape = (2, 3) ∧ s.columns = ["col1", "col2", "col3"]) := by
  constructor
  · unfold read_csv at h
    cases hcl : csvLines payload with
    | nil => rw [hcl] at h; cases h
    | cons header dataLines =>
        rw [hcl] at h
        refine ⟨header, dataLines, rfl, ?_⟩
        simp only [parseLines] at h
        split at h
        · simp only [Except.ok.injEq] at h
          subst h
          refine ⟨_, rfl, ?_, rfl⟩
          simp [get_schema, List.length_map]
        · cases h
  · exact ⟨_, rfl, rfl, rfl, rfl⟩

theorem load_schema_shape_witness :
    (∃ header dataLines,
      csvLines "col1,col2,col3\n1,2,3\n4,5,6" = header :: dataLines ∧
      ∃ s, get_schema (some wCsvDf) = .ok s ∧
        s.shape = (dataLines.length, (splitOnChar ',' header).length) ∧
        s.columns = splitOnChar ',' header) ∧
    (∃ s, read_csv "col1,col2,col3\n1,2,3\n4,5,6" = Except.ok wCsvDf ∧
      get_schema (some wCsvDf) = Except.ok s ∧
      s.shape = (2, 3) ∧ s.columns = ["col1", "col2", "col3"]) :=
  load_schema_shape "col1,col2,col3\n1,2,3\n4,5,6" wCsvDf rfl

/-! ### Distributions -/

theorem mem_dedupAux (x : Cell) :
    ∀ (l seen : List Cell), x ∈ dedupAux seen l → x ∈ l := by
  intro l
  induction l with
  | nil => intro seen h; cases h
  | cons c cs ih =>
      intro seen h
      unfold dedupAux at h
      split at h
      · exact List.mem_cons_of_mem c (ih seen h)
      · rcases List.mem_cons.mp h with rfl | h'
        · exact List.mem_cons_self x cs
        · exact List.mem_cons_of_mem c (ih (c :: seen) h')

theorem mem_dedupAux_not_seen (x : Cell) :
    ∀ (l seen : List Cell), x ∈ dedupAux seen l → x ∉ seen := by
  intro l
  induction l with
  | nil => intro seen h; cases h
  | cons c cs ih =>
      intro seen h
      unfold dedupAux at h
      split at h
      case isTrue hc => exact ih seen h
      case isFalse hc =>
        rcases List.mem_cons.mp h with rfl | h'
        · exact fun hx => hc (by simpa using hx)
        · exact fun hx => ih (c :: seen) h' (List.mem_cons_of_mem c hx)

theorem nodup_dedupAux :
    ∀ (l seen : List Cell), (dedupAux seen l).Nodup := by
  intro l
  induction l with
  | nil => intro seen; exact List.nodup_nil
  | cons c cs ih =>
      intro seen
      unfold dedupAux
      split
      · exact ih seen
      · refine List.nodup_cons.mpr ⟨?_, ih (c :: seen)⟩
        intro hc
        exact mem_dedupAux_not_seen c cs (c :: seen) hc
          (List.mem_cons_self c seen)

theorem nodup_dedupF (l : List Cell) : (dedupF l).Nodup :=
  nodup_dedupAux l []

theorem value_counts_map_fst (cells : List Cell) :
    (value_counts cells).map Prod.fst = dedupF cells := by
  unfold value_counts
  rw [List.map_map]
  exact List.map_id _

theorem mem_value_counts (cells : List Cell) (q : Cell × Nat)
    (hq : q ∈ value_counts cells) : q.2 = cells.count q.1 := by
  unfold value_counts at hq
  obtain ⟨v, _, rfl⟩ := List.mem_map.mp hq
  rfl

/-- **C3 (amended).** The distributions sub-result has one entry for exactly
the first 5 columns in schema order (all of them when fewer than 5); the
entry of column `i` keeps at most 10 of that column's distinct values, each
with its exact occurrence count — the head of the counting operation's
output, which is not sorted by frequency, so with more than 10 distinct
values the kept ones need not be the most frequent.  (A failure computing
one column would be recorded as a per-column error marker; the embedded
counting is total, so no entry here is a marker.) -/
theorem distributions_first5 (df : DataFrame) (i : Nat)
    (hi : i < min 5 df.columns.length) :
    ((_get_distributions df).map Prod.fst = df.columns.take 5) ∧
    ∃ c l, (_get_distributions df)[i]? = some (c, .counts l) ∧
      df.columns[i]? = some c ∧
      l = (value_counts (colCells df i)).take 10 ∧
      l.length ≤ 10 ∧
      (∀ q ∈ l, q.2 = (colCells df i).count q.1) ∧
      (l.map Prod.fst).Nodup := by
  have hi5 : i < 5 := lt_of_lt_of_le hi (min_le_left _ _)
  have hilen : i < df.columns.length := lt_of_lt_of_le hi (min_le_right _ _)
  constructor
  · unfold _get_distributions
    rw [List.map_map]
    have hcomp : (Prod.fst ∘ fun ic : Nat × String =>
        (ic.2, distFor (colCells df ic.1))) = Prod.snd := rfl
    rw [hcomp, List.map_take, List.enum_map_snd]
  · refine ⟨df.columns[i], (value_counts (colCells df i)).take 10,
      ?_, ?_, rfl, ?_, ?_, ?_⟩
    · unfold _get_distributions
      rw [List.getElem?_map, List.getElem?_take_of_lt hi5,
        List.getElem?_enum, List.getElem?_eq_getElem hilen]
      rfl
    · exact List.getElem?_eq_getElem hilen
    · exact List.length_take_le 10 _
    · intro q hq
      exact mem_value_counts _ q (List.mem_of_mem_take hq)
    · rw [List.map_take, value_counts_map_fst]
      exact (List.take_sublist _ _).nodup (nodup_dedupF _)

theorem distributions_first5_witness :
    ((_get_distributions wDf).map Prod.fst = wDf.columns.take 5) ∧
    ∃ c l, (_get_distributions wDf)[0]? = some (c, .counts l) ∧
      wDf.columns[0]? = some c ∧
      l = (value_counts (colCells wDf 0)).take 10 ∧
      l.length ≤ 10 ∧
      (∀ q ∈ l, q.2 = (colCells wDf 0).count q.1) ∧
      (l.map Prod.fst).Nodup :=
  distributions_first5 wDf 0 (by decide)

/-- Twelve rows in one column: eleven distinct values, and the most frequent
one (`"z"`, occurring twice) appears only after ten others. -/
def cexDf : DataFrame :=
  { columns := ["c"]
    dtypes := [.utf8]
    rows := [[some "a0"], [some "a1"], [some "a2"], [some "a3"], [some "a4"],
             [some "a5"], [some "a6"], [some "a7"], [some "a8"], [some "a9"],
             [some "z"], [some "z"]] }

/-- **C3 counterexample.** On `cexDf` the distributions entry for column
`"c"` keeps the ten values of count 1 and omits `"z"` although `"z"` is the
most frequent value (count 2): the entry is not the top-10 most frequent
values, because the counting operation's output is not sorted by count. -/
theorem distributions_not_top10 :
    _get_distributions cexDf =
      [("c", DistEntry.counts
        [(some "a0", 1), (some "a1", 1), (some "a2", 1), (some "a3", 1),
         (some "a4", 1), (some "a5", 1), (some "a6", 1), (some "a7", 1),
         (some "a8", 1), (some "a9", 1)])] ∧
    (colCells cexDf 0).count (some "z") = 2 ∧
    (some "z" : Cell) ∉
      ([(some "a0", 1), (some "a1", 1), (some "a2", 1), (some "a3", 1),
        (some "a4", 1), (some "a5", 1), (some "a6", 1), (some "a7", 1),
        (some "a8", 1), (some "a9", 1)].map
          (Prod.fst (α := Cell) (β := Nat))) := by
  decide

end DataService
